import Mathlib

/-!
Shallow embedding of the AuraStyle client (src/src/types.ts, src/src/App.tsx).

The application is a React component holding eight pieces of state
(occasion, weather, recommendation, loading, chatOpen, messages,
inputValue, chatLoading) and two asynchronous handlers
(`generateRecommendation`, `handleSendMessage`).  We embed it as an
explicit state machine: UI events and promise resolutions are the
transitions, and each transition also reports the external calls it
issues.  The two asynchronous handlers are split into their synchronous
prefix (which issues the call) and the continuation run when the awaited
promise settles; the values their closures captured are recorded in the
state (`pendingGen`, `pendingChat`).

`JSON.parse(response.text)` is modelled by an abstract outcome: the
single `catch` block of `generateRecommendation` receives every transport
failure and every parse failure alike, so the environment's answer is
either `failure` or `success j` for a parsed JSON value `j`.  Note that
the source stores the parsed value without any shape validation.
-/

namespace AuraStyle

/-- The `Occasion` union type of src/src/types.ts: seven string literals. -/
inductive Occasion
  | casual
  | business
  | wedding
  | dateNight
  | party
  | formalEvent
  | outdoorAdventure
deriving DecidableEq, Fintype, Repr

/-- The string each `Occasion` literal denotes. -/
def Occasion.label : Occasion → String
  | .casual => "Casual"
  | .business => "Business"
  | .wedding => "Wedding"
  | .dateNight => "Date Night"
  | .party => "Party"
  | .formalEvent => "Formal Event"
  | .outdoorAdventure => "Outdoor Adventure"

/-- The `Weather` union type of src/src/types.ts: six string literals. -/
inductive Weather
  | sunny
  | rainy
  | cold
  | hot
  | windy
  | snowy
deriving DecidableEq, Fintype, Repr

/-- The string each `Weather` literal denotes. -/
def Weather.label : Weather → String
  | .sunny => "Sunny"
  | .rainy => "Rainy"
  | .cold => "Cold"
  | .hot => "Hot"
  | .windy => "Windy"
  | .snowy => "Snowy"

/-- The `OCCASIONS` catalog of App.tsx (labels only; the icons are
presentation).  The source lists six entries. -/
def OCCASIONS : List Occasion :=
  [.casual, .business, .wedding, .dateNight, .party, .outdoorAdventure]

/-- The `WEATHERS` catalog of App.tsx (labels only). -/
def WEATHERS : List Weather :=
  [.sunny, .rainy, .cold, .hot, .windy, .snowy]

/-- A JSON value, as `JSON.parse` can return it (numbers restricted to
integers, which suffices for every value this development touches). -/
inductive Json
  | null
  | bool (b : Bool)
  | num (n : Int)
  | str (s : String)
  | arr (elems : List Json)
  | obj (fields : List (String × Json))
deriving Repr

/-- The `Recommendation` interface of src/src/types.ts: four required
string fields. -/
structure Recommendation where
  outfit : String
  footwear : String
  accessories : String
  stylingTips : String
deriving DecidableEq, Repr

/-- Look a key up in a JSON object's field list and require a string value. -/
def getStringField (fields : List (String × Json)) (key : String) : Option String :=
  match fields.lookup key with
  | some (Json.str v) => some v
  | _ => none

/-- Read a JSON value as a `Recommendation`: an object carrying the four
required string fields of the response schema in App.tsx. -/
def readRecommendation : Json → Option Recommendation
  | Json.obj fields =>
      match getStringField fields "outfit", getStringField fields "footwear",
            getStringField fields "accessories", getStringField fields "stylingTips" with
      | some a, some b, some c, some d => some ⟨a, b, c, d⟩
      | _, _, _, _ => none
  | _ => none

/-- Whether a parsed JSON value matches the four-string-field shape. -/
def isRecommendationShape (j : Json) : Bool :=
  (readRecommendation j).isSome

/-- One hexadecimal digit, lowercase, as `JSON.stringify` prints it. -/
def hexDigit (n : Nat) : Char :=
  if n < 10 then Char.ofNat (48 + n) else Char.ofNat (87 + n)

/-- `JSON.stringify`'s escaping of one character inside a string literal. -/
def escapeChar (c : Char) : String :=
  if c = '"' then "\\\""
  else if c = '\\' then "\\\\"
  else if c = Char.ofNat 8 then "\\b"
  else if c = Char.ofNat 9 then "\\t"
  else if c = Char.ofNat 10 then "\\n"
  else if c = Char.ofNat 12 then "\\f"
  else if c = Char.ofNat 13 then "\\r"
  else if c.toNat < 32 then
    "\\u00" ++ String.singleton (hexDigit (c.toNat / 16)) ++ String.singleton (hexDigit (c.toNat % 16))
  else String.singleton c

/-- `JSON.stringify`'s escaping of a whole string. -/
def escapeString (s : String) : String :=
  String.join (s.data.map escapeChar)

mutual

/-- `JSON.stringify` on a JSON value (no spacing, as in the source's call). -/
def stringifyJson : Json → String
  | .null => "null"
  | .bool true => "true"
  | .bool false => "false"
  | .num n => toString n
  | .str s => "\"" ++ escapeString s ++ "\""
  | .arr elems => "[" ++ stringifyElems elems ++ "]"
  | .obj fields => "\x7b" ++ stringifyFields fields ++ "\x7d"

/-- Comma-separated serialization of array elements. -/
def stringifyElems : List Json → String
  | [] => ""
  | [j] => stringifyJson j
  | j :: rest => stringifyJson j ++ "," ++ stringifyElems rest

/-- Comma-separated serialization of object fields. -/
def stringifyFields : List (String × Json) → String
  | [] => ""
  | [(k, v)] => "\"" ++ escapeString k ++ "\":" ++ stringifyJson v
  | (k, v) :: rest =>
      "\"" ++ escapeString k ++ "\":" ++ stringifyJson v ++ "," ++ stringifyFields rest

end

/-- `JSON.stringify(recommendation)` where the state may hold `null`. -/
def stringifyOptJson : Option Json → String
  | some j => stringifyJson j
  | none => "null"

/-- Template-literal interpolation of the `occasion` state variable
(JavaScript prints `null` for an unset value). -/
def occasionText : Option Occasion → String
  | some o => o.label
  | none => "null"

/-- Template-literal interpolation of the `weather` state variable. -/
def weatherText : Option Weather → String
  | some w => w.label
  | none => "null"

/-- The role of a chat `Message` (src/src/types.ts). -/
inductive Role
  | user
  | model
deriving DecidableEq, Repr

/-- The `Message` interface of src/src/types.ts. -/
structure Message where
  role : Role
  text : String
deriving DecidableEq, Repr

/-- The prompt `generateRecommendation` sends (App.tsx, `contents`). -/
def genPrompt (o : Occasion) (w : Weather) : String :=
  "As a professional fashion stylist, generate a detailed outfit recommendation for a "
    ++ o.label ++ " occasion in " ++ w.label
    ++ " weather. Return the response in JSON format."

/-- The seed message `generateRecommendation` installs on success. -/
def greeting (o : Occasion) (w : Weather) : String :=
  "Hello! I've generated a " ++ o.label ++ " look for " ++ w.label
    ++ " weather. Do you have any specific questions about this outfit or need more styling advice?"

/-- The system instruction `handleSendMessage` passes to `ai.chats.create`. -/
def chatSystemInstruction (o : Option Occasion) (w : Option Weather) (rec : Option Json) : String :=
  "You are a professional fashion stylist. You just recommended an outfit for a "
    ++ occasionText o ++ " occasion in " ++ weatherText w
    ++ " weather. The recommendation was: " ++ stringifyOptJson rec
    ++ ". Answer the user's questions about fashion, styling, and this specific recommendation. Keep it trendy, practical, and encouraging."

/-- Fallback reply when the chat response text is empty or absent. -/
def chatEmptyFallback : String := "I'm sorry, I couldn't process that."

/-- Fallback reply appended by the chat `catch` block. -/
def chatErrorFallback : String := "I'm having trouble connecting right now. Please try again."

/-- The whole component state of `App`, together with the continuation
data of the at-most-one outstanding call of each kind: `pendingGen`
records the `occasion`/`weather` values the `generateRecommendation`
closure captured, `pendingChat` the system instruction and message of the
outstanding chat call. -/
structure AppState where
  occasion : Option Occasion
  weather : Option Weather
  recommendation : Option Json
  loading : Bool
  chatOpen : Bool
  messages : List Message
  inputValue : String
  chatLoading : Bool
  pendingGen : Option (Occasion × Weather)
  pendingChat : Option (String × String)
deriving Repr

/-- The initial `useState` values of `App`. -/
def initState : AppState :=
  { occasion := none, weather := none, recommendation := none, loading := false,
    chatOpen := false, messages := [], inputValue := "", chatLoading := false,
    pendingGen := none, pendingChat := none }

/-- An external call the component issues. -/
inductive Call
  | generate (prompt : String)
  | chat (systemInstruction : String) (message : String)
deriving Repr

/-- The environment's answer to a recommendation call: `failure` covers a
transport error and a `JSON.parse` error alike (the source's single
`catch` block receives both), `success j` a response whose text parsed
as the JSON value `j`. -/
inductive GenOutcome
  | failure
  | success (j : Json)

/-- The environment's answer to a chat call: `success t` carries
`response.text`, which the SDK may leave absent. -/
inductive ChatOutcome
  | failure
  | success (text : Option String)

/-- Synchronous prefix of `generateRecommendation`: the guard
`if (!occasion || !weather) return;`, then `setLoading(true)` and the
issue of the call.  Returns the new state and the calls issued. -/
def generateRecommendation (s : AppState) : AppState × List Call :=
  match s.occasion, s.weather with
  | some o, some w =>
      ({ s with loading := true, pendingGen := some (o, w) },
       [Call.generate (genPrompt o w)])
  | _, _ => (s, [])

/-- Continuation of `generateRecommendation` once the awaited call
settles: on success `setRecommendation` with the parsed value and
`setMessages` with the single seed greeting; on failure only a log; in
both cases `finally setLoading(false)`.  `o` and `w` are the captured
selections. -/
def resolveGen (o : Occasion) (w : Weather) (r : GenOutcome) (s : AppState) : AppState :=
  match r with
  | .success j =>
      { s with recommendation := some j,
               messages := [⟨Role.model, greeting o w⟩],
               loading := false, pendingGen := none }
  | .failure =>
      { s with loading := false, pendingGen := none }

/-- The effect of JavaScript's `String.prototype.trim`: strip whitespace
from both ends (written over the character list so that it evaluates). -/
def trimString (s : String) : String :=
  String.mk (((s.data.dropWhile Char.isWhitespace).reverse.dropWhile Char.isWhitespace).reverse)

/-- Synchronous prefix of `handleSendMessage`: the guard
`if (!inputValue.trim() || chatLoading) return;`, the optimistic append
of the user message, `setInputValue('')`, `setChatLoading(true)` and the
issue of the chat call (whose closure still reads the old `inputValue`). -/
def handleSendMessage (s : AppState) : AppState × List Call :=
  if trimString s.inputValue = "" ∨ s.chatLoading then (s, [])
  else
    let si := chatSystemInstruction s.occasion s.weather s.recommendation
    ({ s with messages := s.messages ++ [⟨Role.user, s.inputValue⟩],
              inputValue := "", chatLoading := true,
              pendingChat := some (si, s.inputValue) },
     [Call.chat si s.inputValue])

/-- Continuation of `handleSendMessage`: on success append
`response.text || fallback` as a model message, in the `catch` block
append the fixed apology, `finally setChatLoading(false)`. -/
def resolveChat (r : ChatOutcome) (s : AppState) : AppState :=
  match r with
  | .success t =>
      let reply := match t with
        | some txt => if txt = "" then chatEmptyFallback else txt
        | none => chatEmptyFallback
      { s with messages := s.messages ++ [⟨Role.model, reply⟩],
               chatLoading := false, pendingChat := none }
  | .failure =>
      { s with messages := s.messages ++ [⟨Role.model, chatErrorFallback⟩],
               chatLoading := false, pendingChat := none }

/-- A UI event or the settling of an outstanding call. -/
inductive Event
  | selectOccasion (o : Occasion)
  | selectWeather (w : Weather)
  | curateClick
  | genResolve (r : GenOutcome)
  | setInput (t : String)
  | sendClick
  | chatResolve (r : ChatOutcome)
  | openChat
  | closeChat

/-- One transition of the component.  `none` means the event cannot fire
in this state: the triggering control is disabled or absent
(`disabled` is `!occasion || !weather || loading` on the curate button,
the chat input exists only while the drawer is open, the advice button
only once a recommendation is displayed), or no call of that kind is
outstanding. -/
def step (s : AppState) (e : Event) : Option (AppState × List Call) :=
  match e with
  | .selectOccasion o => some ({ s with occasion := some o }, [])
  | .selectWeather w => some ({ s with weather := some w }, [])
  | .curateClick =>
      if s.occasion.isSome && s.weather.isSome && !s.loading then
        some (generateRecommendation s)
      else none
  | .genResolve r =>
      match s.pendingGen with
      | some (o, w) => some (resolveGen o w r s, [])
      | none => none
  | .setInput t =>
      if s.chatOpen then some ({ s with inputValue := t }, []) else none
  | .sendClick =>
      if s.chatOpen then some (handleSendMessage s) else none
  | .chatResolve r =>
      match s.pendingChat with
      | some _ => some (resolveChat r s, [])
      | none => none
  | .openChat =>
      if s.recommendation.isSome && !s.loading then
        some ({ s with chatOpen := true }, [])
      else none
  | .closeChat => some ({ s with chatOpen := false }, [])

/-- The states the component can reach from its initial render. -/
inductive Reachable : AppState → Prop
  | init : Reachable initState
  | next (e : Event) {s s' : AppState} {cs : List Call} :
      Reachable s → step s e = some (s', cs) → Reachable s'

/-- `needle` occurs contiguously inside `hay`. -/
def ContainsSub (needle hay : String) : Prop :=
  needle.data <:+: hay.data

instance (a b : String) : Decidable (ContainsSub a b) :=
  inferInstanceAs (Decidable (a.data <:+: b.data))

lemma containsSub_middle (a b c : String) : ContainsSub b (a ++ b ++ c) := by
  refine ⟨a.data, c.data, ?_⟩
  simp [String.data_append]

lemma greeting_contains_occasion (o : Occasion) (w : Weather) :
    ContainsSub o.label (greeting o w) := by
  refine ⟨"Hello! I've generated a ".data,
    (" look for " ++ w.label ++ " weather. Do you have any specific questions about this outfit or need more styling advice?").data, ?_⟩
  simp [greeting, ContainsSub, String.data_append]

lemma greeting_contains_weather (o : Occasion) (w : Weather) :
    ContainsSub w.label (greeting o w) := by
  refine ⟨("Hello! I've generated a " ++ o.label ++ " look for ").data,
    " weather. Do you have any specific questions about this outfit or need more styling advice?".data, ?_⟩
  simp [greeting, ContainsSub, String.data_append]

lemma chatSI_contains_occasion (o : Option Occasion) (w : Option Weather) (rec : Option Json) :
    ContainsSub (occasionText o) (chatSystemInstruction o w rec) := by
  refine ⟨"You are a professional fashion stylist. You just recommended an outfit for a ".data,
    (" occasion in " ++ weatherText w ++ " weather. The recommendation was: "
      ++ stringifyOptJson rec
      ++ ". Answer the user's questions about fashion, styling, and this specific recommendation. Keep it trendy, practical, and encouraging.").data, ?_⟩
  simp [chatSystemInstruction, ContainsSub, String.data_append]

lemma chatSI_contains_weather (o : Option Occasion) (w : Option Weather) (rec : Option Json) :
    ContainsSub (weatherText w) (chatSystemInstruction o w rec) := by
  refine ⟨("You are a professional fashion stylist. You just recommended an outfit for a "
      ++ occasionText o ++ " occasion in ").data,
    (" weather. The recommendation was: " ++ stringifyOptJson rec
      ++ ". Answer the user's questions about fashion, styling, and this specific recommendation. Keep it trendy, practical, and encouraging.").data, ?_⟩
  simp [chatSystemInstruction, ContainsSub, String.data_append]

lemma chatSI_contains_rec (o : Option Occasion) (w : Option Weather) (rec : Option Json) :
    ContainsSub (stringifyOptJson rec) (chatSystemInstruction o w rec) := by
  refine ⟨("You are a professional fashion stylist. You just recommended an outfit for a "
      ++ occasionText o ++ " occasion in " ++ weatherText w
      ++ " weather. The recommendation was: ").data,
    ". Answer the user's questions about fashion, styling, and this specific recommendation. Keep it trendy, practical, and encouraging.".data, ?_⟩
  simp [chatSystemInstruction, ContainsSub, String.data_append]

/-- The recommendation of the spec's end-to-end scenario A, as a parsed
JSON value. -/
def recJson : Json :=
  Json.obj [("outfit", Json.str "Navy suit"), ("footwear", Json.str "Leather oxfords"),
            ("accessories", Json.str "Umbrella"), ("stylingTips", Json.str "Layer for rain")]

/-- A parsed response that is valid JSON but not of the recommendation shape. -/
def badJson : Json := Json.num 5

/-- Demo state: Business and Rainy selected, nothing requested yet. -/
def demo0 : AppState :=
  { initState with occasion := some Occasion.business, weather := some Weather.rainy }

/-- Demo state: the recommendation request is in flight. -/
def demo1 : AppState := (generateRecommendation demo0).1

/-- Demo state: the request resolved with scenario A's response. -/
def demo2 : AppState :=
  resolveGen Occasion.business Weather.rainy (GenOutcome.success recJson) demo1

/-- Demo state: the chat drawer is open and a question has been typed. -/
def demo3 : AppState :=
  { demo2 with chatOpen := true, inputValue := "What color tie?" }

/-- Demo state: the chat question was submitted and its call is in flight. -/
def demo4 : AppState := (handleSendMessage demo3).1

lemma reach_demo0 : Reachable demo0 :=
  Reachable.next (Event.selectWeather Weather.rainy)
    (Reachable.next (Event.selectOccasion Occasion.business) Reachable.init rfl) rfl

lemma reach_demo1 : Reachable demo1 :=
  Reachable.next Event.curateClick reach_demo0 rfl

lemma reach_demo2 : Reachable demo2 :=
  Reachable.next (Event.genResolve (GenOutcome.success recJson)) reach_demo1 rfl

lemma reach_demo3 : Reachable demo3 :=
  Reachable.next (Event.setInput "What color tie?")
    (Reachable.next Event.openChat reach_demo2 rfl) rfl

lemma reach_demo4 : Reachable demo4 :=
  Reachable.next Event.sendClick reach_demo3 rfl

/-- The state invariant the component maintains: each loading flag is
exactly the presence of the corresponding outstanding call, the chat
drawer only opens once a recommendation exists, a recommendation (or an
outstanding chat call) implies a non-empty transcript, and a non-empty
transcript starts with the seed greeting of some occasion/weather pair. -/
def StateInv (s : AppState) : Prop :=
  s.loading = s.pendingGen.isSome ∧
  s.chatLoading = s.pendingChat.isSome ∧
  (s.chatOpen = true → s.recommendation.isSome = true) ∧
  (s.recommendation.isSome = true → s.messages ≠ []) ∧
  (s.pendingChat.isSome = true → s.messages ≠ []) ∧
  (s.messages ≠ [] → ∃ o w rest, s.messages = Message.mk Role.model (greeting o w) :: rest)

lemma stateInv_step {s s' : AppState} {e : Event} {cs : List Call}
    (hinv : StateInv s) (h : step s e = some (s', cs)) : StateInv s' := by
  obtain ⟨h1, h2, h3, h4, h5, h6⟩ := hinv
  cases e with
  | selectOccasion o =>
      simp only [step, Option.some.injEq, Prod.mk.injEq] at h
      obtain ⟨hs, -⟩ := h
      subst hs
      exact ⟨h1, h2, h3, h4, h5, h6⟩
  | selectWeather w =>
      simp only [step, Option.some.injEq, Prod.mk.injEq] at h
      obtain ⟨hs, -⟩ := h
      subst hs
      exact ⟨h1, h2, h3, h4, h5, h6⟩
  | curateClick =>
      simp only [step] at h
      split at h
      · next hc =>
          simp only [Bool.and_eq_true, Bool.not_eq_true'] at hc
          obtain ⟨⟨ho, hw⟩, -⟩ := hc
          rcases hso : s.occasion with - | o
          · rw [hso] at ho; simp at ho
          rcases hsw : s.weather with - | w
          · rw [hsw] at hw; simp at hw
          simp only [generateRecommendation, hso, hsw, Option.some.injEq,
            Prod.mk.injEq] at h
          obtain ⟨hs, -⟩ := h
          subst hs
          exact ⟨rfl, h2, h3, h4, h5, h6⟩
      · exact absurd h (by simp)
  | genResolve r =>
      simp only [step] at h
      rcases hp : s.pendingGen with - | ⟨o, w⟩ <;> rw [hp] at h
      · exact absurd h (by simp)
      · simp only [Option.some.injEq, Prod.mk.injEq] at h
        obtain ⟨hs, -⟩ := h
        subst hs
        cases r with
        | success j =>
            refine ⟨rfl, h2, fun _ => rfl, fun _ => by simp [resolveGen],
              fun _ => by simp [resolveGen], fun _ => ⟨o, w, [], rfl⟩⟩
        | failure =>
            exact ⟨rfl, h2, h3, h4, h5, h6⟩
  | setInput t =>
      simp only [step] at h
      split at h
      · simp only [Option.some.injEq, Prod.mk.injEq] at h
        obtain ⟨hs, -⟩ := h
        subst hs
        exact ⟨h1, h2, h3, h4, h5, h6⟩
      · exact absurd h (by simp)
  | sendClick =>
      simp only [step] at h
      split at h
      · next hopen =>
          rw [handleSendMessage] at h
          split at h
          · simp only [Option.some.injEq, Prod.mk.injEq] at h
            obtain ⟨hs, -⟩ := h
            subst hs
            exact ⟨h1, h2, h3, h4, h5, h6⟩
          · simp only [Option.some.injEq, Prod.mk.injEq] at h
            obtain ⟨hs, -⟩ := h
            subst hs
            have hms : s.messages ≠ [] := h4 (h3 hopen)
            obtain ⟨o, w, rest, hrest⟩ := h6 hms
            refine ⟨h1, rfl, h3, fun _ => by simp, fun _ => by simp,
              fun _ => ⟨o, w, rest ++ [⟨Role.user, s.inputValue⟩], by rw [hrest]; rfl⟩⟩
      · exact absurd h (by simp)
  | chatResolve r =>
      simp only [step] at h
      rcases hp : s.pendingChat with - | p <;> rw [hp] at h
      · exact absurd h (by simp)
      · simp only [Option.some.injEq, Prod.mk.injEq] at h
        obtain ⟨hs, -⟩ := h
        subst hs
        have hms : s.messages ≠ [] := h5 (by rw [hp]; rfl)
        obtain ⟨o, w, rest, hrest⟩ := h6 hms
        cases r with
        | success t =>
            refine ⟨h1, rfl, h3, fun _ => by simp [resolveChat],
              fun _ => by simp [resolveChat], fun _ => ?_⟩
            exact ⟨o, w, rest ++ [_], by simp only [resolveChat, hrest]; rfl⟩
        | failure =>
            refine ⟨h1, rfl, h3, fun _ => by simp [resolveChat],
              fun _ => by simp [resolveChat], fun _ => ?_⟩
            exact ⟨o, w, rest ++ [_], by simp only [resolveChat, hrest]; rfl⟩
  | openChat =>
      simp only [step] at h
      split at h
      · next hc =>
          simp only [Bool.and_eq_true, Bool.not_eq_true'] at hc
          simp only [Option.some.injEq, Prod.mk.injEq] at h
          obtain ⟨hs, -⟩ := h
          subst hs
          exact ⟨h1, h2, fun _ => hc.1, h4, h5, h6⟩
      · exact absurd h (by simp)
  | closeChat =>
      simp only [step, Option.some.injEq, Prod.mk.injEq] at h
      obtain ⟨hs, -⟩ := h
      subst hs
      exact ⟨h1, h2, by simp, h4, h5, h6⟩

lemma stateInv_of_reachable {s : AppState} (h : Reachable s) : StateInv s := by
  induction h with
  | init =>
      refine ⟨rfl, rfl, by simp [initState], by simp [initState], by simp [initState],
        fun hc => absurd rfl hc⟩
  | next e hr hstep ih => exact stateInv_step ih hstep

/-- Demo state: a second recommendation request is in flight while the
first result is still displayed. -/
def demo5 : AppState := (generateRecommendation demo2).1

/-- Demo state: the second request resolved with a response that is valid
JSON but not of the recommendation shape. -/
def demo6 : AppState :=
  resolveGen Occasion.business Weather.rainy (GenOutcome.success badJson) demo5

/-- Demo state: after the first recommendation, the user switches the
occasion without requesting a new recommendation. -/
def demo7 : AppState := { demo2 with occasion := some Occasion.casual }

/-- A state agreeing with `demo3` on everything but the transcript. -/
def demo3b : AppState :=
  { demo3 with messages := demo3.messages ++ [⟨Role.user, "hi"⟩, ⟨Role.model, "hello"⟩] }

/-- The system instruction of the demo chat turn. -/
def demoSI : String :=
  chatSystemInstruction (some Occasion.business) (some Weather.rainy) (some recJson)

lemma reach_demo5 : Reachable demo5 :=
  Reachable.next Event.curateClick reach_demo2 rfl

lemma reach_demo6 : Reachable demo6 :=
  Reachable.next (Event.genResolve (GenOutcome.success badJson)) reach_demo5 rfl

lemma reach_demo7 : Reachable demo7 :=
  Reachable.next (Event.selectOccasion Occasion.casual) reach_demo2 rfl

set_option maxRecDepth 8192

/-- C1: when both selections are set and the curate click's call resolves
with a response whose text parses as JSON of the four-string-field shape,
the parsed object becomes the whole current Recommendation and the
transcript is reset to exactly one role-model message whose text contains
the request's occasion label and weather label. -/
theorem C1_success_replaces_recommendation_and_reseeds_transcript
    (s s₁ s₂ : AppState) (cs₁ cs₂ : List Call) (o : Occasion) (w : Weather) (j : Json)
    (ho : s.occasion = some o) (hw : s.weather = some w)
    (h₁ : step s Event.curateClick = some (s₁, cs₁))
    (h₂ : step s₁ (Event.genResolve (GenOutcome.success j)) = some (s₂, cs₂))
    (_hshape : isRecommendationShape j = true) :
    s₂.recommendation = some j ∧
    s₂.messages = [⟨Role.model, greeting o w⟩] ∧
    ContainsSub o.label (greeting o w) ∧
    ContainsSub w.label (greeting o w) := by
  simp only [step] at h₁
  split at h₁
  · simp only [generateRecommendation, ho, hw, Option.some.injEq, Prod.mk.injEq] at h₁
    obtain ⟨hs₁, -⟩ := h₁
    subst hs₁
    simp only [step, Option.some.injEq, Prod.mk.injEq] at h₂
    obtain ⟨hs₂, -⟩ := h₂
    subst hs₂
    exact ⟨rfl, rfl, greeting_contains_occasion o w, greeting_contains_weather o w⟩
  · exact absurd h₁ (by simp)

/-- C1 witness: scenario A concretely, Business and Rainy with the
scenario's JSON response. -/
theorem C1_witness :
    demo2.recommendation = some recJson ∧
    demo2.messages = [⟨Role.model, greeting Occasion.business Weather.rainy⟩] ∧
    ContainsSub (Occasion.label Occasion.business) (greeting Occasion.business Weather.rainy) ∧
    ContainsSub (Weather.label Weather.rainy) (greeting Occasion.business Weather.rainy) :=
  C1_success_replaces_recommendation_and_reseeds_transcript demo0 demo1 demo2
    [Call.generate (genPrompt Occasion.business Weather.rainy)] []
    Occasion.business Weather.rainy recJson rfl rfl rfl rfl rfl

/-- C2 (amended): a response whose text is not valid JSON — or a transport
failure, which the same catch block receives — leaves the Recommendation
and the transcript unchanged and only clears the loading flag; but a
response that is valid JSON violating the four-string-field shape is not
rejected: the parsed value replaces the Recommendation and reseeds the
transcript exactly as a conforming one would. -/
theorem C2_parse_failure_swallowed_but_shape_unchecked
    (s : AppState) (o : Occasion) (w : Weather)
    (hp : s.pendingGen = some (o, w)) :
    step s (Event.genResolve GenOutcome.failure)
      = some ({ s with loading := false, pendingGen := none }, []) ∧
    ∀ j, isRecommendationShape j = false →
      step s (Event.genResolve (GenOutcome.success j))
        = some ({ s with recommendation := some j, messages := [⟨Role.model, greeting o w⟩],
                         loading := false, pendingGen := none }, []) := by
  constructor
  · simp [step, hp, resolveGen]
  · intro j _
    simp [step, hp, resolveGen]

/-- C2 witness: concretely, with the scenario A recommendation displayed
and a second request outstanding. -/
theorem C2_witness :
    step demo5 (Event.genResolve GenOutcome.failure)
      = some ({ demo5 with loading := false, pendingGen := none }, []) ∧
    step demo5 (Event.genResolve (GenOutcome.success badJson))
      = some ({ demo5 with recommendation := some badJson,
                           messages := [⟨Role.model, greeting Occasion.business Weather.rainy⟩],
                           loading := false, pendingGen := none }, []) :=
  ⟨(C2_parse_failure_swallowed_but_shape_unchecked demo5
      Occasion.business Weather.rainy rfl).1,
   (C2_parse_failure_swallowed_but_shape_unchecked demo5
      Occasion.business Weather.rainy rfl).2 badJson rfl⟩

/-- C2 counterexample: in a reachable state holding the scenario A
recommendation, a response that is valid JSON (the number 5) but violates
the four-string-field shape does replace the prior Recommendation, against
the claim that the prior Recommendation would be unchanged. -/
theorem C2_counterexample :
    Reachable demo5 ∧
    demo5.recommendation = some recJson ∧
    isRecommendationShape badJson = false ∧
    step demo5 (Event.genResolve (GenOutcome.success badJson)) = some (demo6, []) ∧
    demo6.recommendation = some badJson ∧
    demo6.recommendation ≠ demo5.recommendation := by
  refine ⟨reach_demo5, rfl, rfl, rfl, rfl, ?_⟩
  have e1 : demo6.recommendation = some badJson := rfl
  have e2 : demo5.recommendation = some recJson := rfl
  rw [e1, e2]
  simp [badJson, recJson]

/-- C3 counterexample: the Occasion enumeration has seven members, but the
Selection Panel's occasion catalog omits the Formal Event label, so the
catalog does not present every member of the set. -/
theorem C3_counterexample :
    Fintype.card Occasion = 7 ∧
    Occasion.formalEvent ∉ OCCASIONS ∧
    OCCASIONS.length = 6 := by decide

/-- C3 (amended): Occasion is a fixed closed set of exactly seven labels,
and the occasion catalog presents exactly six of them — every label except
Formal Event — without duplicates, so the setter can receive exactly those
six values through the UI. -/
theorem C3_catalog_presents_six_of_seven_occasions :
    Fintype.card Occasion = 7 ∧
    (∀ o : Occasion, o ∈ OCCASIONS ↔ o ≠ Occasion.formalEvent) ∧
    OCCASIONS.Nodup := by decide

/-- C4 counterexample: after generating a Business/Rainy recommendation
the user selects Casual without requesting a new one; the reachable state
has a non-empty transcript whose first entry still references Business and
Rainy and does not contain the currently selected occasion label. -/
theorem C4_counterexample :
    Reachable demo7 ∧
    demo7.messages ≠ [] ∧
    demo7.occasion = some Occasion.casual ∧
    demo7.messages.head? = some ⟨Role.model, greeting Occasion.business Weather.rainy⟩ ∧
    ¬ ContainsSub (Occasion.label Occasion.casual) (greeting Occasion.business Weather.rainy) := by
  refine ⟨reach_demo7, by decide, by decide, by decide, by decide⟩

/-- C4 (amended): in every reachable state with a non-empty transcript,
the first entry is a role-model greeting for some occasion/weather pair —
the pair captured when the recommendation was generated — whose text
contains both those labels; and changing either selection leaves the
transcript, hence that greeting, unchanged, so the greeting references the
generation-time pair rather than necessarily the currently selected one. -/
theorem C4_first_entry_is_generation_time_greeting
    (s : AppState) (h : Reachable s) :
    (s.messages ≠ [] →
      ∃ o w rest, s.messages = Message.mk Role.model (greeting o w) :: rest ∧
        ContainsSub o.label (greeting o w) ∧ ContainsSub w.label (greeting o w)) ∧
    (∀ o s' cs, step s (Event.selectOccasion o) = some (s', cs) → s'.messages = s.messages) ∧
    (∀ w s' cs, step s (Event.selectWeather w) = some (s', cs) → s'.messages = s.messages) := by
  refine ⟨fun hm => ?_, fun o s' cs h' => ?_, fun w s' cs h' => ?_⟩
  · obtain ⟨-, -, -, -, -, h6⟩ := stateInv_of_reachable h
    obtain ⟨o, w, rest, hrest⟩ := h6 hm
    exact ⟨o, w, rest, hrest, greeting_contains_occasion o w, greeting_contains_weather o w⟩
  · simp only [step, Option.some.injEq, Prod.mk.injEq] at h'
    obtain ⟨hs, -⟩ := h'
    rw [← hs]
  · simp only [step, Option.some.injEq, Prod.mk.injEq] at h'
    obtain ⟨hs, -⟩ := h'
    rw [← hs]

/-- C4 witness: the amended statement applied to the concrete reachable
state after scenario A, and to the occasion change leading to `demo7`. -/
theorem C4_witness :
    (∃ o w rest, demo2.messages = Message.mk Role.model (greeting o w) :: rest ∧
      ContainsSub o.label (greeting o w) ∧ ContainsSub w.label (greeting o w)) ∧
    demo7.messages = demo2.messages :=
  ⟨(C4_first_entry_is_generation_time_greeting demo2 reach_demo2).1 (by decide),
   (C4_first_entry_is_generation_time_greeting demo2 reach_demo2).2.1
     Occasion.casual demo7 [] rfl⟩

/-- C5: with either selection unset, the curate button is disabled and the
handler itself returns at its guard: the state is unchanged and no
external call is issued. -/
theorem C5_missing_selection_is_noop
    (s : AppState) (h : s.occasion = none ∨ s.weather = none) :
    generateRecommendation s = (s, []) ∧ step s Event.curateClick = none := by
  constructor
  · rcases h with h | h
    · simp [generateRecommendation, h]
    · rcases ho : s.occasion with - | o <;> simp [generateRecommendation, ho, h]
  · rcases h with h | h <;> simp [step, h]

/-- C5 witness: the initial state has neither selection. -/
theorem C5_witness :
    generateRecommendation initState = (initState, []) ∧
    step initState Event.curateClick = none :=
  C5_missing_selection_is_noop initState (Or.inl rfl)

/-- C6: a chat send whose input is empty after trimming, or issued while a
chat call is outstanding, changes nothing and issues no call. -/
theorem C6_empty_or_outstanding_send_is_noop
    (s : AppState) (h : trimString s.inputValue = "" ∨ s.chatLoading = true) :
    handleSendMessage s = (s, []) := by
  rw [handleSendMessage]
  rcases h with h | h <;> simp [h]

/-- C6 witness: the initial state's input is empty. -/
theorem C6_witness : handleSendMessage initState = (initState, []) :=
  C6_empty_or_outstanding_send_is_noop initState (Or.inl rfl)

/-- C7: an accepted chat turn appends the role-user message with the
submitted text before the call resolves, and the single issued call
carries a system instruction containing the currently selected occasion
label, the currently selected weather label, and the current
Recommendation serialized as JSON text. -/
theorem C7_accepted_turn_appends_user_and_grounds_context
    (s : AppState) (o : Occasion) (w : Weather) (r : Json)
    (ho : s.occasion = some o) (hw : s.weather = some w) (hr : s.recommendation = some r)
    (htrim : trimString s.inputValue ≠ "") (hbusy : s.chatLoading = false) :
    (handleSendMessage s).1.messages = s.messages ++ [⟨Role.user, s.inputValue⟩] ∧
    (handleSendMessage s).2
      = [Call.chat (chatSystemInstruction (some o) (some w) (some r)) s.inputValue] ∧
    ContainsSub o.label (chatSystemInstruction (some o) (some w) (some r)) ∧
    ContainsSub w.label (chatSystemInstruction (some o) (some w) (some r)) ∧
    ContainsSub (stringifyJson r) (chatSystemInstruction (some o) (some w) (some r)) := by
  have hcond : ¬(trimString s.inputValue = "" ∨ s.chatLoading) := by
    rintro (hc | hc)
    · exact htrim hc
    · exact absurd hc (by simp [hbusy])
  rw [handleSendMessage, if_neg hcond]
  refine ⟨rfl, by rw [ho, hw, hr], ?_, ?_, ?_⟩
  · exact chatSI_contains_occasion (some o) (some w) (some r)
  · exact chatSI_contains_weather (some o) (some w) (some r)
  · exact chatSI_contains_rec (some o) (some w) (some r)

/-- C7 witness: scenario B's chat turn from the concrete state `demo3`. -/
theorem C7_witness :
    (handleSendMessage demo3).1.messages = demo3.messages ++ [⟨Role.user, demo3.inputValue⟩] ∧
    (handleSendMessage demo3).2 = [Call.chat demoSI demo3.inputValue] ∧
    ContainsSub (Occasion.label Occasion.business) demoSI ∧
    ContainsSub (Weather.label Weather.rainy) demoSI ∧
    ContainsSub (stringifyJson recJson) demoSI :=
  C7_accepted_turn_appends_user_and_grounds_context demo3
    Occasion.business Weather.rainy recJson rfl rfl rfl (by decide) rfl

/-- C8: resolution of an outstanding chat call appends exactly one
role-model message — the returned text when present and non-empty, the
fixed fallback when the text is empty or absent, the fixed apology on
transport error — and clears the chatLoading flag in every case. -/
theorem C8_chat_resolution_appends_reply_and_clears_flag
    (s : AppState) (si msg : String) (hp : s.pendingChat = some (si, msg)) :
    (∀ t, t ≠ "" →
      step s (Event.chatResolve (ChatOutcome.success (some t)))
        = some ({ s with messages := s.messages ++ [⟨Role.model, t⟩],
                         chatLoading := false, pendingChat := none }, [])) ∧
    step s (Event.chatResolve (ChatOutcome.success (some "")))
      = some ({ s with messages := s.messages ++ [⟨Role.model, chatEmptyFallback⟩],
                       chatLoading := false, pendingChat := none }, []) ∧
    step s (Event.chatResolve (ChatOutcome.success none))
      = some ({ s with messages := s.messages ++ [⟨Role.model, chatEmptyFallback⟩],
                       chatLoading := false, pendingChat := none }, []) ∧
    step s (Event.chatResolve ChatOutcome.failure)
      = some ({ s with messages := s.messages ++ [⟨Role.model, chatErrorFallback⟩],
                       chatLoading := false, pendingChat := none }, []) := by
  refine ⟨fun t ht => ?_, ?_, ?_, ?_⟩ <;> simp [step, hp, resolveChat, *]

/-- C8 witness: the four resolutions of the concrete outstanding chat call
of `demo4`, with "Wear a red tie." as the non-empty reply. -/
theorem C8_witness :
    step demo4 (Event.chatResolve (ChatOutcome.success (some "Wear a red tie.")))
      = some ({ demo4 with messages := demo4.messages ++ [⟨Role.model, "Wear a red tie."⟩],
                           chatLoading := false, pendingChat := none }, []) ∧
    step demo4 (Event.chatResolve (ChatOutcome.success (some "")))
      = some ({ demo4 with messages := demo4.messages ++ [⟨Role.model, chatEmptyFallback⟩],
                           chatLoading := false, pendingChat := none }, []) ∧
    step demo4 (Event.chatResolve (ChatOutcome.success none))
      = some ({ demo4 with messages := demo4.messages ++ [⟨Role.model, chatEmptyFallback⟩],
                           chatLoading := false, pendingChat := none }, []) ∧
    step demo4 (Event.chatResolve ChatOutcome.failure)
      = some ({ demo4 with messages := demo4.messages ++ [⟨Role.model, chatErrorFallback⟩],
                           chatLoading := false, pendingChat := none }, []) :=
  ⟨(C8_chat_resolution_appends_reply_and_clears_flag demo4 demoSI "What color tie?" rfl).1
      "Wear a red tie." (by decide),
   (C8_chat_resolution_appends_reply_and_clears_flag demo4 demoSI "What color tie?" rfl).2.1,
   (C8_chat_resolution_appends_reply_and_clears_flag demo4 demoSI "What color tie?" rfl).2.2.1,
   (C8_chat_resolution_appends_reply_and_clears_flag demo4 demoSI "What color tie?" rfl).2.2.2⟩

/-- C9: in every reachable state the loading flag equals the presence of
the outstanding recommendation call; while it is set the curate control
cannot fire, a firing curate click finds it clear, sets it, and issues its
call, and the resolution of the call clears both the flag and the pending
record. -/
theorem C9_loading_brackets_single_call (s : AppState) (h : Reachable s) :
    s.loading = s.pendingGen.isSome ∧
    (s.loading = true → step s Event.curateClick = none) ∧
    (∀ s' cs, step s Event.curateClick = some (s', cs) →
      s.loading = false ∧ s'.loading = true ∧ s'.pendingGen.isSome = true ∧ cs ≠ []) ∧
    (∀ r s' cs, step s (Event.genResolve r) = some (s', cs) →
      s'.loading = false ∧ s'.pendingGen = none) := by
  obtain ⟨h1, -, -, -, -, -⟩ := stateInv_of_reachable h
  refine ⟨h1, fun hl => ?_, fun s' cs hc => ?_, fun r s' cs hg => ?_⟩
  · simp [step, hl]
  · simp only [step] at hc
    split at hc
    · next hcond =>
        simp only [Bool.and_eq_true, Bool.not_eq_true'] at hcond
        obtain ⟨⟨ho, hw⟩, hl⟩ := hcond
        rcases hso : s.occasion with - | o
        · rw [hso] at ho; simp at ho
        rcases hsw : s.weather with - | w
        · rw [hsw] at hw; simp at hw
        simp only [generateRecommendation, hso, hsw, Option.some.injEq,
          Prod.mk.injEq] at hc
        obtain ⟨hs, hcs⟩ := hc
        subst hs
        exact ⟨hl, rfl, rfl, by rw [← hcs]; simp⟩
    · exact absurd hc (by simp)
  · simp only [step] at hg
    rcases hp : s.pendingGen with - | ⟨o, w⟩ <;> rw [hp] at hg
    · exact absurd hg (by simp)
    · simp only [Option.some.injEq, Prod.mk.injEq] at hg
      obtain ⟨hs, -⟩ := hg
      subst hs
      cases r <;> exact ⟨rfl, rfl⟩

/-- C9 witness: with the demo request in flight the flag is set and the
curate control cannot fire. -/
theorem C9_witness :
    demo1.loading = demo1.pendingGen.isSome ∧ step demo1 Event.curateClick = none :=
  ⟨(C9_loading_brackets_single_call demo1 reach_demo1).1,
   (C9_loading_brackets_single_call demo1 reach_demo1).2.1 rfl⟩

/-- C10: the chat call of an accepted turn carries exactly the system
instruction — a function of the current occasion, weather and
Recommendation only — and the single new user text; two states agreeing on
those four values but with different transcripts issue identical calls, so
earlier chat turns are never transmitted. -/
theorem C10_chat_call_independent_of_transcript
    (s₁ s₂ : AppState)
    (ho : s₁.occasion = s₂.occasion) (hw : s₁.weather = s₂.weather)
    (hr : s₁.recommendation = s₂.recommendation) (hi : s₁.inputValue = s₂.inputValue)
    (ht : trimString s₁.inputValue ≠ "") (hb₁ : s₁.chatLoading = false) (hb₂ : s₂.chatLoading = false) :
    (handleSendMessage s₁).2
      = [Call.chat (chatSystemInstruction s₁.occasion s₁.weather s₁.recommendation)
          s₁.inputValue] ∧
    (handleSendMessage s₁).2 = (handleSendMessage s₂).2 := by
  have hc₁ : ¬(trimString s₁.inputValue = "" ∨ s₁.chatLoading) := by
    rintro (hc | hc)
    · exact ht hc
    · exact absurd hc (by simp [hb₁])
  have hc₂ : ¬(trimString s₂.inputValue = "" ∨ s₂.chatLoading) := by
    rintro (hc | hc)
    · exact ht (by rw [hi]; exact hc)
    · exact absurd hc (by simp [hb₂])
  rw [handleSendMessage, if_neg hc₁, handleSendMessage, if_neg hc₂]
  exact ⟨rfl, by rw [ho, hw, hr, hi]⟩

/-- C10 witness: `demo3` and `demo3b` differ only in their transcripts and
issue the same single chat call. -/
theorem C10_witness :
    (handleSendMessage demo3).2 = [Call.chat demoSI "What color tie?"] ∧
    (handleSendMessage demo3).2 = (handleSendMessage demo3b).2 :=
  C10_chat_call_independent_of_transcript demo3 demo3b
    rfl rfl rfl rfl (by decide) rfl rfl

end AuraStyle
